import Mathlib

/-!
Shallow embedding of the Quest casting helper's device-reconciliation core:
`src/models.py` (Transport, DeviceState, QuestDevice, AppState),
`src/adb_manager.py` (detect_quest_device, find_wifi_serial, connect_wireless),
`src/cast_manager.py` (generate_scrcpy_command, start_casting target choice),
`src/main_new.py` (CastingApplication.handle_cast_request) and
`src/main.py` (cast_screen).

Python string primitives (str.splitlines, str.split, substring membership,
str.lower, str.strip, truthiness of strings/objects and the `or` operator)
are modelled at the character-list level so that everything reduces in the
kernel.
-/

namespace Casting

/-- Model of Python whitespace for `str.split()` / `str.strip()`
(ASCII whitespace: space, tab, newline, carriage return, vertical tab,
form feed). -/
def isPySpace (c : Char) : Bool :=
  c = ' ' || c = '\t' || c = '\n' || c = '\r' || c = '\x0b' || c = '\x0c'

/-- Split a character list at every character satisfying `p`, keeping empty
pieces (the building block for the Python split operations). -/
def pySplitBy (p : Char → Bool) : List Char → List (List Char)
  | [] => [[]]
  | c :: cs =>
    match pySplitBy p cs with
    | [] => [[c]]
    | h :: t => if p c then [] :: h :: t else (c :: h) :: t

/-- Model of Python `str.splitlines()` for newline-separated text: split on
the newline character; a trailing newline does not produce a final empty
line. -/
def splitlinesPy (s : String) : List String :=
  let parts := (pySplitBy (fun c => c = '\n') s.data).map fun cs => String.mk cs
  match parts.getLast? with
  | some l => if l = "" then parts.dropLast else parts
  | none => parts

/-- Model of Python `str.split()` with no arguments: tokens are the maximal
runs of non-whitespace characters; no empty tokens are produced. -/
def split_py (s : String) : List String :=
  ((pySplitBy isPySpace s.data).map fun cs => String.mk cs).filter fun t => t ≠ ""

/-- Model of Python `":" in serial`: the serial contains a colon. -/
def hasColon (s : String) : Bool := s.data.contains ':'

/-- Character-level prefix test for the substring model. -/
def startsWithChars : List Char → List Char → Bool
  | [], _ => true
  | _ :: _, [] => false
  | a :: as, b :: bs => (a = b) && startsWithChars as bs

/-- Character-level substring test. -/
def hasSubChars (needle : List Char) : List Char → Bool
  | [] => startsWithChars needle []
  | c :: t => startsWithChars needle (c :: t) || hasSubChars needle t

/-- Model of Python `needle in hay` for strings (substring membership). -/
def inPy (needle hay : String) : Bool := hasSubChars needle.data hay.data

/-- Model of Python `str.lower()` (ASCII case folding). -/
def lowerPy (s : String) : String := String.mk (s.data.map Char.toLower)

/-- Model of Python `str.strip()`: remove leading and trailing whitespace. -/
def stripPy (s : String) : String :=
  String.mk (((s.data.dropWhile isPySpace).reverse.dropWhile isPySpace).reverse)

/-- Truthiness of a Python `Optional[str]`: `None` and `""` are falsy. -/
def pyTruthyStrOpt : Option String → Bool
  | none => false
  | some s => decide (s ≠ "")

/-- Model of Python `a or b` on `Optional[str]` values. -/
def pyOrStrOpt (a b : Option String) : Option String :=
  if pyTruthyStrOpt a then a else b

/-- `Transport` enumeration from `src/models.py`. -/
inductive Transport where
  | WIFI
  | USB
  | UNKNOWN
deriving DecidableEq, Repr

/-- `DeviceState` enumeration from `src/models.py`; the `UNKNOWN` member has
the enum value `""`. -/
inductive DeviceState where
  | DEVICE
  | UNAUTHORIZED
  | OFFLINE
  | UNKNOWN
deriving DecidableEq, Repr

/-- Model of the Python enum value lookup `DeviceState(state_str)`: `some`
on a known enum value (including `""` for `UNKNOWN`), `none` where the
constructor would raise `ValueError`. -/
def DeviceState.ofValue? (s : String) : Option DeviceState :=
  if s = "device" then some DeviceState.DEVICE
  else if s = "unauthorized" then some DeviceState.UNAUTHORIZED
  else if s = "offline" then some DeviceState.OFFLINE
  else if s = "" then some DeviceState.UNKNOWN
  else none

/-- The `try: DeviceState(state_str) except ValueError: UNKNOWN` step of
`ADBManager.detect_quest_device`. -/
def parseState (s : String) : DeviceState :=
  (DeviceState.ofValue? s).getD DeviceState.UNKNOWN

/-- `QuestDevice` dataclass from `src/models.py`. -/
structure QuestDevice where
  transport : Transport
  state : DeviceState
  serial : Option String := none
deriving DecidableEq, Repr

/-- `QuestDevice.is_wifi` property. -/
def QuestDevice.is_wifi (d : QuestDevice) : Bool :=
  decide (d.transport = Transport.WIFI)

/-- `QuestDevice.is_authorized` property. -/
def QuestDevice.is_authorized (d : QuestDevice) : Bool :=
  decide (d.state = DeviceState.DEVICE)

/-- `QuestDevice.is_connected` property: any state except unknown/offline. -/
def QuestDevice.is_connected (d : QuestDevice) : Bool :=
  decide (¬(d.state = DeviceState.UNKNOWN ∨ d.state = DeviceState.OFFLINE))

/-- `QuestDevice.__bool__`: connected and has a serial (`is not None`). -/
def QuestDevice.pyBool (d : QuestDevice) : Bool :=
  d.is_connected && d.serial.isSome

/-- Truthiness of a Python `Optional[QuestDevice]`: `None` is falsy,
otherwise `__bool__` decides. -/
def pyBoolDevOpt : Option QuestDevice → Bool
  | none => false
  | some d => d.pyBool

/-- Model of Python `a or b` on `Optional[QuestDevice]` values, as used by
`wifi_device or usb_device` in `detect_quest_device`. -/
def pyOrDevOpt (a b : Option QuestDevice) : Option QuestDevice :=
  if pyBoolDevOpt a then a else b

/-- One iteration of the row loop of `ADBManager.detect_quest_device`:
skip rows with fewer than two tokens, classify by colon-in-serial, and keep
only the first candidate of each transport. -/
def scanStep (acc : Option QuestDevice × Option QuestDevice) (line : String) :
    Option QuestDevice × Option QuestDevice :=
  match split_py line with
  | serial :: stateStr :: _ =>
    let st := parseState stateStr
    if hasColon serial then
      match acc.1 with
      | none => (some ⟨Transport.WIFI, st, some serial⟩, acc.2)
      | some _ => acc
    else
      match acc.2 with
      | none => (acc.1, some ⟨Transport.USB, st, some serial⟩)
      | some _ => acc
  | _ => acc

/-- The row loop of `ADBManager.detect_quest_device` over the body lines
(header already removed), returning the Wi-Fi and USB candidates. -/
def scanRows (lines : List String) : Option QuestDevice × Option QuestDevice :=
  lines.foldl scanStep (none, none)

/-- `ADBManager.detect_quest_device` given pre-split output lines: drop the
header line, scan the rows, then select `wifi_device or usb_device`,
falling back to the canonical no-device record. -/
def detectFromLines (lines : List String) : QuestDevice :=
  let cands := scanRows (lines.drop 1)
  match pyOrDevOpt cands.1 cands.2 with
  | some d => d
  | none => ⟨Transport.UNKNOWN, DeviceState.UNKNOWN, none⟩

/-- `ADBManager.detect_quest_device` as a function of the raw
`adb devices -l` output text. -/
def detect_quest_device (devicesOutput : String) : QuestDevice :=
  detectFromLines (splitlinesPy devicesOutput)

/-- The row loop of `ADBManager.find_wifi_serial` (identical logic to
`wifi_serial_from_adb` in `src/main.py`): return the first token-0 that
contains a colon. -/
def findWifiRow : List String → Option String
  | [] => none
  | line :: rest =>
    match split_py line with
    | tok0 :: _ => if hasColon tok0 then some tok0 else findWifiRow rest
    | [] => findWifiRow rest

/-- `ADBManager.find_wifi_serial` as a function of the raw device-listing
output. -/
def find_wifi_serial (devicesOutput : String) : Option String :=
  findWifiRow ((splitlinesPy devicesOutput).drop 1)

/-- `AppState` dataclass from `src/models.py`. -/
structure AppState where
  current_device : Option QuestDevice := none
  last_wifi_serial : Option String := none
deriving DecidableEq, Repr

/-- `AppState.update_device`: always replace `current_device`; remember the
serial only for a truthy Wi-Fi serial (`device.is_wifi and device.serial`). -/
def AppState.update_device (st : AppState) (device : QuestDevice) : AppState :=
  let st1 : AppState := { st with current_device := some device }
  if device.is_wifi && pyTruthyStrOpt device.serial then
    { st1 with last_wifi_serial := device.serial }
  else st1

/-- `ScrcpyConfig` dataclass from `src/config.py` with its defaults. -/
structure ScrcpyConfig where
  render_driver : String := "opengl"
  crop : String := "1600:900:2017:510"
  bitrate : String := "4M"
  max_size : Nat := 1024
  video_codec : String := "h264"
  video_encoder : String := "OMX.qcom.video.encoder.avc"
  no_audio : Bool := true
  no_control : Bool := true
deriving DecidableEq, Repr

/-- `CastManager.generate_scrcpy_command`: scrcpy path, optional
`-s <serial>` selector (only for a truthy serial), the fixed flag list, and
the optional no-audio / no-control flags. -/
def generate_scrcpy_command (scrcpyPath : String) (config : ScrcpyConfig)
    (serial : Option String) : List String :=
  let base := [scrcpyPath]
  let withSerial :=
    match serial with
    | some s => if s = "" then base else base ++ ["-s", s]
    | none => base
  let cmd := withSerial ++
    ["--render-driver", config.render_driver,
     "--crop", config.crop,
     "-b", config.bitrate,
     "--max-size", toString config.max_size,
     "--video-codec", config.video_codec,
     "--video-encoder", config.video_encoder]
  let cmd := if config.no_audio then cmd ++ ["--no-audio"] else cmd
  if config.no_control then cmd ++ ["-n"] else cmd

/-- Result of an external command as consumed by
`ADBManager.connect_wireless`: exit code and captured text output. -/
structure CompletedProcess where
  returncode : Int
  stdout : String
deriving DecidableEq, Repr

/-- The decision core of `ADBManager.connect_wireless`: strip the output,
then succeed exactly when the lower-cased text contains "connected" or
"already connected"; the exit code is never examined. -/
def connect_wireless (result : CompletedProcess) : Bool × String :=
  let output := stripPy result.stdout
  (inPy ("connected") (lowerPy output) || inPy ("already connected") (lowerPy output),
   output)

/-- Observable outcome of a cast request: one of the two refusal dialogs, or
an attempted launch of the mirroring process with the resolved target
serial. -/
inductive CastOutcome where
  | warnNotConnected
  | warnNotAuthorized
  | launchAttempted (target : Option String)
deriving DecidableEq, Repr

/-- `CastingApplication.handle_cast_request` from `src/main_new.py` as a
function of the polled current device and the device-listing output read by
`find_wifi_serial`: the `if not current_device` guard, the
validation-only-without-Wi-Fi policy, and the `wifi_serial or device.serial`
target choice of `CastManager.start_casting`. -/
def handle_cast_request (currentDevice : Option QuestDevice)
    (devicesOutput : String) : CastOutcome :=
  match currentDevice with
  | none => CastOutcome.warnNotConnected
  | some d =>
    if d.pyBool then
      let wifiSerial := find_wifi_serial devicesOutput
      if !(pyTruthyStrOpt wifiSerial) && !d.is_authorized then
        if d.state = DeviceState.UNAUTHORIZED then CastOutcome.warnNotAuthorized
        else CastOutcome.warnNotConnected
      else CastOutcome.launchAttempted (pyOrStrOpt wifiSerial d.serial)
    else CastOutcome.warnNotConnected

/-- `cast_screen` from `src/main.py` as a function of the `quest_state()`
triple components it uses (raw state string and serial) and of the Wi-Fi
serial returned by `wifi_serial_from_adb()`: the two guards only fire when
no truthy Wi-Fi serial is present, and the target is `wifi or serial`. -/
def cast_screen (state : String) (serial : Option String)
    (wifi : Option String) : CastOutcome :=
  if !(pyTruthyStrOpt wifi) && state == "unauthorized" then
    CastOutcome.warnNotAuthorized
  else if !(pyTruthyStrOpt wifi) && state != "device" then
    CastOutcome.warnNotConnected
  else
    CastOutcome.launchAttempted (pyOrStrOpt wifi serial)

end Casting

namespace Casting

/-- Tokens produced by the Python no-argument split are never empty. -/
lemma split_py_ne_empty (s : String) : ∀ t ∈ split_py s, t ≠ "" := by
  intro t ht
  exact of_decide_eq_true (List.mem_filter.mp ht).2

/-- A Boolean marker for rows the classifier reads as Wi-Fi rows. -/
def isWifiRow (line : String) : Bool :=
  match split_py line with
  | t0 :: _ :: _ => hasColon t0
  | _ => false

/-- A Boolean marker for rows the classifier reads as USB rows. -/
def isUsbRow (line : String) : Bool :=
  match split_py line with
  | t0 :: _ :: _ => !hasColon t0
  | _ => false

lemma scanStep_fst_some {acc : Option QuestDevice × Option QuestDevice}
    {d : QuestDevice} (h : acc.1 = some d) (line : String) :
    (scanStep acc line).1 = some d := by
  cases hsp : split_py line with
  | nil => simp [scanStep, hsp, h]
  | cons t0 tl =>
    cases tl with
    | nil => simp [scanStep, hsp, h]
    | cons t1 tr =>
      cases hc : hasColon t0 with
      | true => simp [scanStep, hsp, hc, h]
      | false => cases ha2 : acc.2 <;> simp [scanStep, hsp, hc, h, ha2]

lemma scanStep_snd_some {acc : Option QuestDevice × Option QuestDevice}
    {d : QuestDevice} (h : acc.2 = some d) (line : String) :
    (scanStep acc line).2 = some d := by
  cases hsp : split_py line with
  | nil => simp [scanStep, hsp, h]
  | cons t0 tl =>
    cases tl with
    | nil => simp [scanStep, hsp, h]
    | cons t1 tr =>
      cases hc : hasColon t0 with
      | false => simp [scanStep, hsp, hc, h]
      | true => cases ha1 : acc.1 <;> simp [scanStep, hsp, hc, h, ha1]

lemma scanFold_fst_some {d : QuestDevice} :
    ∀ (ls : List String) (acc : Option QuestDevice × Option QuestDevice),
      acc.1 = some d → (List.foldl scanStep acc ls).1 = some d
  | [], _, h => h
  | l :: ls, acc, h => scanFold_fst_some ls _ (scanStep_fst_some h l)

lemma scanFold_snd_some {d : QuestDevice} :
    ∀ (ls : List String) (acc : Option QuestDevice × Option QuestDevice),
      acc.2 = some d → (List.foldl scanStep acc ls).2 = some d
  | [], _, h => h
  | l :: ls, acc, h => scanFold_snd_some ls _ (scanStep_snd_some h l)

lemma scanStep_fst_of_not_wifi {line : String} (h : isWifiRow line = false)
    (acc : Option QuestDevice × Option QuestDevice) :
    (scanStep acc line).1 = acc.1 := by
  cases hsp : split_py line with
  | nil => simp [scanStep, hsp]
  | cons t0 tl =>
    cases tl with
    | nil => simp [scanStep, hsp]
    | cons t1 tr =>
      have hc : hasColon t0 = false := by simpa [isWifiRow, hsp] using h
      cases ha2 : acc.2 <;> simp [scanStep, hsp, hc, ha2]

lemma scanStep_snd_of_not_usb {line : String} (h : isUsbRow line = false)
    (acc : Option QuestDevice × Option QuestDevice) :
    (scanStep acc line).2 = acc.2 := by
  cases hsp : split_py line with
  | nil => simp [scanStep, hsp]
  | cons t0 tl =>
    cases tl with
    | nil => simp [scanStep, hsp]
    | cons t1 tr =>
      have hc : hasColon t0 = true := by simpa [isUsbRow, hsp] using h
      cases ha1 : acc.1 <;> simp [scanStep, hsp, hc, ha1]

lemma scanFold_fst_of_not_wifi :
    ∀ (pre : List String), (∀ l ∈ pre, isWifiRow l = false) →
      ∀ acc, (List.foldl scanStep acc pre).1 = acc.1
  | [], _, _ => rfl
  | l :: ls, h, acc => by
    rw [List.foldl_cons,
      scanFold_fst_of_not_wifi ls (fun x hx => h x (List.mem_cons_of_mem l hx)) _,
      scanStep_fst_of_not_wifi (h l (List.mem_cons_self l ls)) acc]

lemma scanFold_snd_of_not_usb :
    ∀ (pre : List String), (∀ l ∈ pre, isUsbRow l = false) →
      ∀ acc, (List.foldl scanStep acc pre).2 = acc.2
  | [], _, _ => rfl
  | l :: ls, h, acc => by
    rw [List.foldl_cons,
      scanFold_snd_of_not_usb ls (fun x hx => h x (List.mem_cons_of_mem l hx)) _,
      scanStep_snd_of_not_usb (h l (List.mem_cons_self l ls)) acc]

end Casting

namespace Casting

/-- Shape of every Wi-Fi candidate record built by the classifier row
loop. -/
def wifiShaped (d : QuestDevice) : Prop :=
  d.transport = Transport.WIFI ∧
    ∃ s, d.serial = some s ∧ hasColon s = true ∧ s ≠ ""

/-- Shape of every USB candidate record built by the classifier row loop. -/
def usbShaped (d : QuestDevice) : Prop :=
  d.transport = Transport.USB ∧
    ∃ s, d.serial = some s ∧ hasColon s = false ∧ s ≠ ""

/-- Invariant carried by the candidate pair through the row loop. -/
def candsShaped (acc : Option QuestDevice × Option QuestDevice) : Prop :=
  (∀ d, acc.1 = some d → wifiShaped d) ∧ (∀ d, acc.2 = some d → usbShaped d)

lemma scanStep_shaped {acc : Option QuestDevice × Option QuestDevice}
    (h : candsShaped acc) (line : String) : candsShaped (scanStep acc line) := by
  obtain ⟨h1, h2⟩ := h
  cases hsp : split_py line with
  | nil => exact ⟨fun d hd => h1 d (by simpa [scanStep, hsp] using hd),
      fun d hd => h2 d (by simpa [scanStep, hsp] using hd)⟩
  | cons t0 tl =>
    cases tl with
    | nil => exact ⟨fun d hd => h1 d (by simpa [scanStep, hsp] using hd),
        fun d hd => h2 d (by simpa [scanStep, hsp] using hd)⟩
    | cons t1 tr =>
      have ht0 : t0 ≠ "" :=
        split_py_ne_empty line t0 (by rw [hsp]; exact List.mem_cons_self _ _)
      cases hc : hasColon t0 with
      | true =>
        cases ha1 : acc.1 with
        | some w => exact ⟨fun d hd => h1 d (by simpa [scanStep, hsp, hc, ha1] using hd),
            fun d hd => h2 d (by simpa [scanStep, hsp, hc, ha1] using hd)⟩
        | none =>
          constructor
          · intro d hd
            have hd2 : d = ⟨Transport.WIFI, parseState t1, some t0⟩ := by
              simpa [scanStep, hsp, hc, ha1, eq_comm] using hd
            subst hd2
            exact ⟨rfl, ⟨t0, rfl, hc, ht0⟩⟩
          · intro d hd
            exact h2 d (by simpa [scanStep, hsp, hc, ha1] using hd)
      | false =>
        cases ha2 : acc.2 with
        | some u => exact ⟨fun d hd => h1 d (by simpa [scanStep, hsp, hc, ha2] using hd),
            fun d hd => h2 d (by simpa [scanStep, hsp, hc, ha2] using hd)⟩
        | none =>
          constructor
          · intro d hd
            exact h1 d (by simpa [scanStep, hsp, hc, ha2] using hd)
          · intro d hd
            have hd2 : d = ⟨Transport.USB, parseState t1, some t0⟩ := by
              simpa [scanStep, hsp, hc, ha2, eq_comm] using hd
            subst hd2
            exact ⟨rfl, ⟨t0, rfl, hc, ht0⟩⟩

lemma scanRows_shaped (lines : List String) : candsShaped (scanRows lines) := by
  suffices h : ∀ acc, candsShaped acc → candsShaped (List.foldl scanStep acc lines) by
    have base : candsShaped (none, none) := by
      constructor
      · intro d hd; cases hd
      · intro d hd; cases hd
    exact h (none, none) base
  induction lines with
  | nil => exact fun acc h => h
  | cons l ls ih => exact fun acc h => ih _ (scanStep_shaped h l)

lemma pyOrDevOpt_none_left (u : Option QuestDevice) : pyOrDevOpt none u = u := rfl

lemma pyOrDevOpt_some_true {d : QuestDevice} (h : d.pyBool = true)
    (u : Option QuestDevice) : pyOrDevOpt (some d) u = some d := by
  simp [pyOrDevOpt, pyBoolDevOpt, h]

lemma pyOrDevOpt_some_false {d : QuestDevice} (h : d.pyBool = false)
    (u : Option QuestDevice) : pyOrDevOpt (some d) u = u := by
  simp [pyOrDevOpt, pyBoolDevOpt, h]

/-- Every record returned by the classifier (lines form) is a Wi-Fi-shaped
candidate, a USB-shaped candidate, or the canonical no-device record. -/
lemma detectFromLines_shaped (lines : List String) :
    wifiShaped (detectFromLines lines) ∨ usbShaped (detectFromLines lines) ∨
    detectFromLines lines = ⟨Transport.UNKNOWN, DeviceState.UNKNOWN, none⟩ := by
  obtain ⟨h1, h2⟩ := scanRows_shaped (lines.drop 1)
  cases hw : (scanRows (lines.drop 1)).1 with
  | none =>
    cases hu : (scanRows (lines.drop 1)).2 with
    | none =>
      right; right
      simp only [detectFromLines, hw, hu, pyOrDevOpt_none_left]
    | some u =>
      right; left
      have hdet : detectFromLines lines = u := by
        simp only [detectFromLines, hw, hu, pyOrDevOpt_none_left]
      rw [hdet]; exact h2 u hu
  | some w =>
    cases hb : w.pyBool with
    | true =>
      left
      have hdet : detectFromLines lines = w := by
        simp only [detectFromLines, hw, pyOrDevOpt_some_true hb]
      rw [hdet]; exact h1 w hw
    | false =>
      cases hu : (scanRows (lines.drop 1)).2 with
      | none =>
        right; right
        simp only [detectFromLines, hw, hu, pyOrDevOpt_some_false hb]
      | some u =>
        right; left
        have hdet : detectFromLines lines = u := by
          simp only [detectFromLines, hw, hu, pyOrDevOpt_some_false hb]
        rw [hdet]; exact h2 u hu

/-- Every record returned by the classifier is a Wi-Fi-shaped candidate, a
USB-shaped candidate, or the canonical no-device record. -/
lemma detect_shaped (out : String) :
    wifiShaped (detect_quest_device out) ∨ usbShaped (detect_quest_device out) ∨
    detect_quest_device out = ⟨Transport.UNKNOWN, DeviceState.UNKNOWN, none⟩ := by
  unfold detect_quest_device
  exact detectFromLines_shaped (splitlinesPy out)

lemma findWifiRow_ne_empty : ∀ {ls : List String} {w : String},
    findWifiRow ls = some w → w ≠ "" := by
  intro ls
  induction ls with
  | nil => intro w h; simp [findWifiRow] at h
  | cons l t ih =>
    intro w h
    cases hsp : split_py l with
    | nil =>
      simp only [findWifiRow, hsp] at h
      exact ih h
    | cons t0 tr =>
      cases hc : hasColon t0 with
      | false =>
        simp only [findWifiRow, hsp, hc] at h
        simp at h
        exact ih h
      | true =>
        simp only [findWifiRow, hsp, hc, if_true] at h
        simp at h
        rw [← h]
        exact split_py_ne_empty l t0 (by rw [hsp]; exact List.mem_cons_self _ _)

lemma find_wifi_serial_ne_empty {out w : String}
    (h : find_wifi_serial out = some w) : w ≠ "" := by
  rw [find_wifi_serial] at h
  exact findWifiRow_ne_empty h

end Casting

namespace Casting

/-- C1 counterexample: a well-formed listing with one Wi-Fi row (state
"offline") and one USB row (state "device"). The classifier returns the USB
row's record, not the Wi-Fi row's, because `wifi_device or usb_device`
evaluates `QuestDevice.__bool__` and an offline record is falsy — so the
claim's "regardless of either row's state string" fails. -/
theorem C1_counterexample :
    detect_quest_device
        ("List of devices attached\n192.168.0.15:5555 offline\n1WMHH123 device") =
      ⟨Transport.USB, DeviceState.DEVICE, some ("1WMHH123")⟩ ∧
    Transport.USB ≠ Transport.WIFI := by
  constructor
  · decide
  · decide

/-- C1 (amended): for every well-formed listing with one Wi-Fi row and one
USB row, in either order, the classifier returns the Wi-Fi row's record
exactly when that record is truthy (its state token is neither "offline"
nor unrecognized); otherwise it returns the USB row's record. -/
theorem C1_wifi_preferred_amended (hdr lw lu s1 t1 s2 t2 : String)
    (r1 r2 : List String)
    (hw : split_py lw = s1 :: t1 :: r1) (hc1 : hasColon s1 = true)
    (hu : split_py lu = s2 :: t2 :: r2) (hc2 : hasColon s2 = false) :
    detectFromLines [hdr, lw, lu] =
      (if (QuestDevice.mk Transport.WIFI (parseState t1) (some s1)).pyBool
       then ⟨Transport.WIFI, parseState t1, some s1⟩
       else ⟨Transport.USB, parseState t2, some s2⟩) ∧
    detectFromLines [hdr, lu, lw] =
      (if (QuestDevice.mk Transport.WIFI (parseState t1) (some s1)).pyBool
       then ⟨Transport.WIFI, parseState t1, some s1⟩
       else ⟨Transport.USB, parseState t2, some s2⟩) := by
  have hscan1 : scanRows [lw, lu] =
      (some ⟨Transport.WIFI, parseState t1, some s1⟩,
       some ⟨Transport.USB, parseState t2, some s2⟩) := by
    simp [scanRows, scanStep, hw, hc1, hu, hc2]
  have hscan2 : scanRows [lu, lw] =
      (some ⟨Transport.WIFI, parseState t1, some s1⟩,
       some ⟨Transport.USB, parseState t2, some s2⟩) := by
    simp [scanRows, scanStep, hw, hc1, hu, hc2]
  cases hb : (QuestDevice.mk Transport.WIFI (parseState t1) (some s1)).pyBool with
  | true =>
    constructor
    · simp only [detectFromLines, List.drop, hscan1, pyOrDevOpt_some_true hb, if_true]
    · simp only [detectFromLines, List.drop, hscan2, pyOrDevOpt_some_true hb, if_true]
  | false =>
    constructor
    · simp only [detectFromLines, List.drop, hscan1, pyOrDevOpt_some_false hb,
        Bool.false_eq_true, if_false]
    · simp only [detectFromLines, List.drop, hscan2, pyOrDevOpt_some_false hb,
        Bool.false_eq_true, if_false]

/-- Witness for C1 (amended) at a concrete listing: Wi-Fi row authorized, so
the Wi-Fi record is truthy and wins over the USB row. -/
theorem C1_wifi_preferred_amended_witness :
    split_py ("192.168.1.50:5555 device") = ["192.168.1.50:5555", "device"] ∧
    split_py ("ABCD1234 unauthorized") = ["ABCD1234", "unauthorized"] ∧
    detectFromLines
        ["List of devices attached", "192.168.1.50:5555 device", "ABCD1234 unauthorized"] =
      (if (QuestDevice.mk Transport.WIFI (parseState ("device"))
            (some ("192.168.1.50:5555"))).pyBool
       then ⟨Transport.WIFI, parseState ("device"), some ("192.168.1.50:5555")⟩
       else ⟨Transport.USB, parseState ("unauthorized"), some ("ABCD1234")⟩) :=
  ⟨by decide, by decide,
    (C1_wifi_preferred_amended ("List of devices attached")
      "192.168.1.50:5555 device" "ABCD1234 unauthorized"
      "192.168.1.50:5555" "device" "ABCD1234" "unauthorized" [] []
      (by decide) (by decide) (by decide) (by decide)).1⟩

end Casting

namespace Casting

/-- C2 counterexample: the listing offers a Wi-Fi serial, but the polled
current device is falsy (state OFFLINE), so `handle_cast_request` returns
the not-connected warning from its presence guard before ever consulting
the Wi-Fi serial — the launch is not attempted, contradicting "the launch
is attempted regardless of the polled device's state". -/
theorem C2_counterexample :
    find_wifi_serial
        ("List of devices attached\n10.0.0.5:5555 device\n1WMHH123 offline") =
      some ("10.0.0.5:5555") ∧
    handle_cast_request (some ⟨Transport.USB, DeviceState.OFFLINE, some ("1WMHH123")⟩)
        "List of devices attached\n10.0.0.5:5555 device\n1WMHH123 offline" =
      CastOutcome.warnNotConnected := by
  constructor
  · decide
  · decide

/-- C2 (amended): when a Wi-Fi serial is available, validation is skipped
and the launch targets that serial regardless of the polled device's
authorization state — unconditionally in `cast_screen` (src/main.py), and
in `handle_cast_request` (src/main_new.py) provided the polled device
passes the initial truthiness guard (`bool(device)` true); in particular a
device with state UNAUTHORIZED and a serial present gets a launch attempt
and no NotAuthorized warning. -/
theorem C2_wifi_skips_validation_amended (d : QuestDevice) (out w : String)
    (hw : find_wifi_serial out = some w) :
    (d.pyBool = true →
      handle_cast_request (some d) out = CastOutcome.launchAttempted (some w)) ∧
    (∀ st ser, cast_screen st ser (find_wifi_serial out) =
      CastOutcome.launchAttempted (some w)) := by
  have hne : w ≠ "" := find_wifi_serial_ne_empty hw
  have htr : pyTruthyStrOpt (find_wifi_serial out) = true := by
    simp [hw, pyTruthyStrOpt, hne]
  constructor
  · intro hb
    simp only [handle_cast_request, hb, if_true, htr, Bool.not_true,
      Bool.false_and, Bool.false_eq_true, if_false]
    simp [pyOrStrOpt, hw, pyTruthyStrOpt, hne]
  · intro st ser
    simp only [cast_screen, htr, Bool.not_true, Bool.false_and,
      Bool.false_eq_true, if_false]
    simp [pyOrStrOpt, hw, pyTruthyStrOpt, hne]

/-- Witness for C2 (amended): unauthorized USB device with a serial, Wi-Fi
row present — the launch is attempted at the Wi-Fi serial. -/
theorem C2_wifi_skips_validation_amended_witness :
    find_wifi_serial ("List of devices attached\n10.0.0.5:5555 device\n1WMHH123 unauthorized") =
      some ("10.0.0.5:5555") ∧
    (QuestDevice.mk Transport.USB DeviceState.UNAUTHORIZED (some ("1WMHH123"))).pyBool = true ∧
    handle_cast_request
        (some ⟨Transport.USB, DeviceState.UNAUTHORIZED, some ("1WMHH123")⟩)
        "List of devices attached\n10.0.0.5:5555 device\n1WMHH123 unauthorized" =
      CastOutcome.launchAttempted (some ("10.0.0.5:5555")) :=
  ⟨by decide, by decide,
    (C2_wifi_skips_validation_amended
      ⟨Transport.USB, DeviceState.UNAUTHORIZED, some ("1WMHH123")⟩
      "List of devices attached\n10.0.0.5:5555 device\n1WMHH123 unauthorized"
      "10.0.0.5:5555" (by decide)).1 (by decide)⟩

/-- C3: with no Wi-Fi serial available and a non-authorized device, both
cast entry points refuse to launch — no mirroring process is spawned — and
report NotAuthorized exactly for the UNAUTHORIZED state and NotConnected
for every other non-authorized state. For `handle_cast_request` the device
record is assumed to satisfy the classifier invariant that a record without
a serial has state UNKNOWN (claim C4), which holds for every polled
record. -/
theorem C3_refuse_without_wifi (d : QuestDevice) (out : String)
    (hwifi : find_wifi_serial out = none)
    (hauth : d.is_authorized = false)
    (hinv : d.serial = none → d.state = DeviceState.UNKNOWN) :
    (handle_cast_request (some d) out =
      if d.state = DeviceState.UNAUTHORIZED then CastOutcome.warnNotAuthorized
      else CastOutcome.warnNotConnected) ∧
    (∀ t, handle_cast_request (some d) out ≠ CastOutcome.launchAttempted t) ∧
    (∀ st ser, st ≠ "device" →
      (cast_screen st ser none =
        if st = "unauthorized" then CastOutcome.warnNotAuthorized
        else CastOutcome.warnNotConnected) ∧
      ∀ t, cast_screen st ser none ≠ CastOutcome.launchAttempted t) := by
  have hmain : handle_cast_request (some d) out =
      if d.state = DeviceState.UNAUTHORIZED then CastOutcome.warnNotAuthorized
      else CastOutcome.warnNotConnected := by
    obtain ⟨tr, stt, ser⟩ := d
    cases stt with
    | DEVICE => simp [QuestDevice.is_authorized] at hauth
    | UNAUTHORIZED =>
      cases ser with
      | none => simpa using hinv rfl
      | some s =>
        simp [handle_cast_request, QuestDevice.pyBool, QuestDevice.is_connected,
          QuestDevice.is_authorized, hwifi, pyTruthyStrOpt]
    | OFFLINE =>
      simp [handle_cast_request, QuestDevice.pyBool, QuestDevice.is_connected]
    | UNKNOWN =>
      simp [handle_cast_request, QuestDevice.pyBool, QuestDevice.is_connected]
  refine ⟨hmain, ?_, ?_⟩
  · intro t h
    rw [hmain] at h
    by_cases hst : d.state = DeviceState.UNAUTHORIZED
    · rw [if_pos hst] at h; cases h
    · rw [if_neg hst] at h; cases h
  · intro st ser hst
    by_cases hun : st = "unauthorized"
    · constructor
      · simp [cast_screen, pyTruthyStrOpt, hun]
      · intro t h
        simp [cast_screen, pyTruthyStrOpt, hun] at h
    · constructor
      · simp [cast_screen, pyTruthyStrOpt, hun, hst]
      · intro t h
        simp [cast_screen, pyTruthyStrOpt, hun, hst] at h

/-- Witness for C3 at a concrete unauthorized USB device with no Wi-Fi row
in the listing. -/
theorem C3_refuse_without_wifi_witness :
    find_wifi_serial ("List of devices attached\n1WMHH123 unauthorized") = none ∧
    (QuestDevice.mk Transport.USB DeviceState.UNAUTHORIZED (some ("1WMHH123"))).is_authorized = false ∧
    handle_cast_request
        (some ⟨Transport.USB, DeviceState.UNAUTHORIZED, some ("1WMHH123")⟩)
        "List of devices attached\n1WMHH123 unauthorized" =
      (if (QuestDevice.mk Transport.USB DeviceState.UNAUTHORIZED (some ("1WMHH123"))).state
          = DeviceState.UNAUTHORIZED
       then CastOutcome.warnNotAuthorized else CastOutcome.warnNotConnected) :=
  ⟨by decide, by decide,
    (C3_refuse_without_wifi
      ⟨Transport.USB, DeviceState.UNAUTHORIZED, some ("1WMHH123")⟩
      "List of devices attached\n1WMHH123 unauthorized"
      (by decide) (by decide) (by intro h; cases h)).1⟩

end Casting

namespace Casting

/-- C4: every record produced by the classifier satisfies the data-model
invariant — transport is WIFI exactly when the serial is present and
contains a colon (the code's reading of the host:port pattern), and a
record without a serial has transport UNKNOWN and state UNKNOWN. -/
theorem C4_classifier_invariant (out : String) :
    ((detect_quest_device out).transport = Transport.WIFI ↔
      ∃ s, (detect_quest_device out).serial = some s ∧ hasColon s = true) ∧
    ((detect_quest_device out).serial = none →
      (detect_quest_device out).transport = Transport.UNKNOWN ∧
      (detect_quest_device out).state = DeviceState.UNKNOWN) := by
  rcases detect_shaped out with h | h | h
  · obtain ⟨ht, s, hs, hc, hne⟩ := h
    refine ⟨⟨fun _ => ⟨s, hs, hc⟩, fun _ => ht⟩, ?_⟩
    intro hnone
    rw [hs] at hnone
    cases hnone
  · obtain ⟨ht, s, hs, hc, hne⟩ := h
    constructor
    · constructor
      · intro hwifi
        rw [ht] at hwifi
        cases hwifi
      · rintro ⟨s2, hs2, hc2⟩
        rw [hs] at hs2
        injection hs2 with he
        rw [he] at hc
        rw [hc] at hc2
        cases hc2
    · intro hnone
      rw [hs] at hnone
      cases hnone
  · rw [h]
    constructor
    · constructor
      · intro hwifi; cases hwifi
      · rintro ⟨s2, hs2, _⟩; cases hs2
    · intro _; exact ⟨rfl, rfl⟩

/-- C5: `AppState.update_device` always replaces `current_device` with the
new record, and writes `last_wifi_serial` exactly when the record is Wi-Fi
with a non-null serial; otherwise the cached serial is untouched. The
hypothesis excludes a Wi-Fi record with the empty-string serial, which the
program never constructs (classifier serials are non-empty split tokens). -/
theorem C5_update_device_cache (st : AppState) (d : QuestDevice)
    (hne : d.serial ≠ some ("")) :
    (st.update_device d).current_device = some d ∧
    (st.update_device d).last_wifi_serial =
      (if d.transport = Transport.WIFI ∧ d.serial ≠ none then d.serial
       else st.last_wifi_serial) := by
  obtain ⟨tr, stt, ser⟩ := d
  cases ser with
  | none =>
    simp [AppState.update_device, pyTruthyStrOpt, QuestDevice.is_wifi]
  | some s =>
    have hs : s ≠ "" := fun h => hne (by rw [h])
    cases tr <;>
      simp [AppState.update_device, pyTruthyStrOpt, QuestDevice.is_wifi, hs]

/-- Witness for C5: a Wi-Fi record with a serial updates the cache. -/
theorem C5_update_device_cache_witness :
    (QuestDevice.mk Transport.WIFI DeviceState.DEVICE
        (some ("192.168.1.50:5555"))).serial ≠ some ("") ∧
    ((AppState.mk none (some ("10.0.0.9:5555"))).update_device
        ⟨Transport.WIFI, DeviceState.DEVICE, some ("192.168.1.50:5555")⟩).current_device =
      some ⟨Transport.WIFI, DeviceState.DEVICE, some ("192.168.1.50:5555")⟩ ∧
    ((AppState.mk none (some ("10.0.0.9:5555"))).update_device
        ⟨Transport.WIFI, DeviceState.DEVICE, some ("192.168.1.50:5555")⟩).last_wifi_serial =
      (if (QuestDevice.mk Transport.WIFI DeviceState.DEVICE
            (some ("192.168.1.50:5555"))).transport = Transport.WIFI ∧
          (QuestDevice.mk Transport.WIFI DeviceState.DEVICE
            (some ("192.168.1.50:5555"))).serial ≠ none
       then (QuestDevice.mk Transport.WIFI DeviceState.DEVICE
            (some ("192.168.1.50:5555"))).serial
       else (AppState.mk none (some ("10.0.0.9:5555"))).last_wifi_serial) := by
  refine ⟨by decide, ?_⟩
  exact C5_update_device_cache (AppState.mk none (some ("10.0.0.9:5555")))
    ⟨Transport.WIFI, DeviceState.DEVICE, some ("192.168.1.50:5555")⟩ (by decide)

/-- C6: the classifier's row scan is first-line-wins per transport: if the
lines before a given Wi-Fi (resp. USB) row contain no row of that
transport, the Wi-Fi (resp. USB) candidate is that row's serial and state,
whatever rows follow — later duplicate rows of the same transport are
ignored. -/
theorem C6_first_row_wins :
    (∀ (pre : List String) (line : String) (rest : List String)
        (s st : String) (r : List String),
      (∀ l ∈ pre, isWifiRow l = false) →
      split_py line = s :: st :: r → hasColon s = true →
      (scanRows (pre ++ line :: rest)).1 =
        some ⟨Transport.WIFI, parseState st, some s⟩) ∧
    (∀ (pre : List String) (line : String) (rest : List String)
        (s st : String) (r : List String),
      (∀ l ∈ pre, isUsbRow l = false) →
      split_py line = s :: st :: r → hasColon s = false →
      (scanRows (pre ++ line :: rest)).2 =
        some ⟨Transport.USB, parseState st, some s⟩) := by
  constructor
  · intro pre line rest s st r hpre hsp hc
    unfold scanRows
    rw [List.foldl_append, List.foldl_cons]
    have h1 : (List.foldl scanStep (none, none) pre).1 = none :=
      scanFold_fst_of_not_wifi pre hpre (none, none)
    refine scanFold_fst_some rest _ ?_
    simp [scanStep, hsp, hc, h1]
  · intro pre line rest s st r hpre hsp hc
    unfold scanRows
    rw [List.foldl_append, List.foldl_cons]
    have h2 : (List.foldl scanStep (none, none) pre).2 = none :=
      scanFold_snd_of_not_usb pre hpre (none, none)
    refine scanFold_snd_some rest _ ?_
    simp [scanStep, hsp, hc, h2]

/-- Witness for C6: two Wi-Fi rows after a USB row — the Wi-Fi candidate is
the first Wi-Fi row's record, and the second Wi-Fi row is ignored. -/
theorem C6_first_row_wins_witness :
    split_py ("10.0.0.5:5555 device") = ["10.0.0.5:5555", "device"] ∧
    hasColon ("10.0.0.5:5555") = true ∧
    (scanRows ["1WMHH123 device", "10.0.0.5:5555 device", "10.0.0.9:5555 offline"]).1 =
      some ⟨Transport.WIFI, parseState ("device"), some ("10.0.0.5:5555")⟩ :=
  ⟨by decide, by decide,
    C6_first_row_wins.1 ["1WMHH123 device"] "10.0.0.5:5555 device"
      ["10.0.0.9:5555 offline"] "10.0.0.5:5555" "device" []
      (by decide) (by decide) (by decide)⟩

/-- C7: the classifier's state parsing maps the three known tokens by exact
match and every other token to UNKNOWN; being a total function, it never
fails on an unexpected token. -/
theorem C7_state_vocabulary :
    parseState ("device") = DeviceState.DEVICE ∧
    parseState ("unauthorized") = DeviceState.UNAUTHORIZED ∧
    parseState ("offline") = DeviceState.OFFLINE ∧
    ∀ s, s ≠ "device" → s ≠ "unauthorized" → s ≠ "offline" →
      parseState s = DeviceState.UNKNOWN := by
  refine ⟨by decide, by decide, by decide, ?_⟩
  intro s h1 h2 h3
  simp only [parseState, DeviceState.ofValue?, h1, h2, h3, if_false]
  by_cases h0 : s = ""
  · simp [h0]
  · simp [h0]

/-- Witness for C7 at an unexpected state token. -/
theorem C7_state_vocabulary_witness :
    ("bootloader" ≠ "device") ∧ ("bootloader" ≠ "unauthorized") ∧
    ("bootloader" ≠ "offline") ∧
    parseState ("bootloader") = DeviceState.UNKNOWN :=
  ⟨by decide, by decide, by decide,
    C7_state_vocabulary.2.2.2 ("bootloader") (by decide) (by decide) (by decide)⟩

end Casting

namespace Casting

/-- C8: the wireless connect step succeeds exactly when the stripped,
lower-cased output text contains "connected" or "already connected"; the
reported outcome is a function of the output text alone, so the exit code
is never consulted. -/
theorem C8_connect_success_text_only (r1 r2 : CompletedProcess)
    (hout : r1.stdout = r2.stdout) :
    (connect_wireless r1).1 = (connect_wireless r2).1 ∧
    ((connect_wireless r1).1 = true ↔
      (inPy ("connected") (lowerPy (stripPy r1.stdout)) = true ∨
       inPy ("already connected") (lowerPy (stripPy r1.stdout)) = true)) := by
  constructor
  · simp [connect_wireless, hout]
  · simp [connect_wireless, Bool.or_eq_true]

/-- Witness for C8: two results with the same output text but different
exit codes — same success decision, and the text condition holds. -/
theorem C8_connect_success_text_only_witness :
    (CompletedProcess.mk 1 ("connected to 10.0.0.7:5555")).stdout =
      (CompletedProcess.mk 0 ("connected to 10.0.0.7:5555")).stdout ∧
    (connect_wireless ⟨1, "connected to 10.0.0.7:5555"⟩).1 =
      (connect_wireless ⟨0, "connected to 10.0.0.7:5555"⟩).1 :=
  ⟨rfl,
    (C8_connect_success_text_only ⟨1, "connected to 10.0.0.7:5555"⟩
      ⟨0, "connected to 10.0.0.7:5555"⟩ rfl).1⟩

/-- C9: for every configuration and serial choice, the generated mirroring
command contains the crop string verbatim as one single argument token
immediately after the `--crop` flag. -/
theorem C9_crop_roundtrip (path : String) (config : ScrcpyConfig)
    (serial : Option String) :
    ∃ pre post, generate_scrcpy_command path config serial =
      pre ++ "--crop" :: config.crop :: post := by
  have core : ∀ ws : List String, ∃ pre post,
      (ws ++ ["--render-driver", config.render_driver,
        "--crop", config.crop,
        "-b", config.bitrate,
        "--max-size", toString config.max_size,
        "--video-codec", config.video_codec,
        "--video-encoder", config.video_encoder]) =
        pre ++ "--crop" :: config.crop :: post := by
    intro ws
    refine ⟨ws ++ ["--render-driver", config.render_driver],
      ["-b", config.bitrate, "--max-size", toString config.max_size,
       "--video-codec", config.video_codec,
       "--video-encoder", config.video_encoder], ?_⟩
    simp
  have step : ∀ (l : List String) (extra : List String),
      (∃ pre post, l = pre ++ "--crop" :: config.crop :: post) →
      ∃ pre post, l ++ extra = pre ++ "--crop" :: config.crop :: post := by
    rintro l extra ⟨pre, post, h⟩
    exact ⟨pre, post ++ extra, by rw [h]; simp⟩
  have tail : ∀ (l : List String),
      (∃ pre post, l = pre ++ "--crop" :: config.crop :: post) →
      ∃ pre post,
        (if config.no_control then
            (if config.no_audio then l ++ ["--no-audio"] else l) ++ ["-n"]
          else if config.no_audio then l ++ ["--no-audio"] else l) =
          pre ++ "--crop" :: config.crop :: post := by
    intro l h
    cases config.no_audio <;> cases config.no_control <;>
      simp only [if_true, if_false, Bool.false_eq_true] <;>
      first
        | exact h
        | exact step _ _ h
        | exact step _ _ (step _ _ h)
  cases serial with
  | none =>
    have h := tail _ (core [path])
    cases hna : config.no_audio <;> cases hnc : config.no_control <;>
      simpa [generate_scrcpy_command, hna, hnc] using h
  | some s =>
    by_cases hs : s = ""
    · have h := tail _ (core [path])
      cases hna : config.no_audio <;> cases hnc : config.no_control <;>
        simpa [generate_scrcpy_command, hs, hna, hnc] using h
    · have h := tail _ (core [path, "-s", s])
      cases hna : config.no_audio <;> cases hnc : config.no_control <;>
        simpa [generate_scrcpy_command, hs, hna, hnc] using h

/-- C10: a QuestDevice is truthy exactly when its state is neither UNKNOWN
nor OFFLINE and its serial is present; that truthiness is what the
classifier's final wifi-or-usb selection (`pyOrDevOpt`) and the cast
handler's current-device guard evaluate. -/
theorem C10_truthiness (d : QuestDevice) :
    (d.pyBool = true ↔
      (d.state ≠ DeviceState.UNKNOWN ∧ d.state ≠ DeviceState.OFFLINE ∧
       d.serial ≠ none)) ∧
    (d.pyBool = false →
      ∀ out, handle_cast_request (some d) out = CastOutcome.warnNotConnected) ∧
    (∀ u, d.pyBool = false → pyOrDevOpt (some d) u = u) := by
  refine ⟨?_, ?_, ?_⟩
  · obtain ⟨tr, stt, ser⟩ := d
    cases ser <;> cases stt <;>
      simp [QuestDevice.pyBool, QuestDevice.is_connected]
  · intro hb out
    simp [handle_cast_request, hb]
  · intro u hb
    exact pyOrDevOpt_some_false hb u

/-- Witness for C10 at a concrete falsy device (offline, serial present):
the guard reports not-connected and the selection falls through to the USB
candidate. -/
theorem C10_truthiness_witness :
    (QuestDevice.mk Transport.WIFI DeviceState.OFFLINE (some ("10.0.0.5:5555"))).pyBool = false ∧
    handle_cast_request
        (some ⟨Transport.WIFI, DeviceState.OFFLINE, some ("10.0.0.5:5555")⟩) "" =
      CastOutcome.warnNotConnected :=
  ⟨by decide,
    (C10_truthiness ⟨Transport.WIFI, DeviceState.OFFLINE, some ("10.0.0.5:5555")⟩).2.1
      (by decide) ""⟩

end Casting
